import Mathlib

/-!
Shallow embedding of the bounded-buffer producer-consumer program in
src/Proyecto1/Proyecto1.cpp, and theorems settling the specification
claims about it.  Timing is abstracted: a timed semaphore acquire is
modelled by its outcome (success or failure), and the number of failed
waits of a produce call is an explicit parameter.
-/

/-- Consumer wait bound in milliseconds, from the constant MAX_WAIT_TIME_MS. -/
def MAX_WAIT_TIME_MS : Nat := 5000

/-- Producer retry delay in milliseconds, from the constant PRODUCER_RETRY_DELAY_MS. -/
def PRODUCER_RETRY_DELAY_MS : Nat := 500

/-- Diagnostic messages emitted through printMessage, notifyProducerWait and
handleConsumerTimeout; each constructor stands for one message shape. -/
inductive Msg
  | producerWait (id item : Int)
  | produced (id item : Int)
  | consumerTimeout (id : Int)
  | consumed (id item : Int)
  | remaining (itemsShown : List Int)
  | bufferEmptyNote
  deriving DecidableEq, Repr

/-- State of one Buffer object: the FIFO queue, the two counting-semaphore
counts (spaces and items), and the log of emitted diagnostics. -/
structure BufferState where
  buffer : List Int
  spaces : Nat
  items : Nat
  log : List Msg
  deriving DecidableEq, Repr

namespace Buffer

/-- Model of Buffer::produce.  The parameter k is the number of timed
acquires of the spaces semaphore that fail before one succeeds: each
failure emits a wait diagnostic and loops; on success the spaces count is
decremented by the acquire, the item is pushed at the FIFO tail, a success
diagnostic is emitted, and the items semaphore is released. -/
def produce (id item : Int) : Nat → BufferState → BufferState
  | Nat.succ k, s =>
      produce id item k { s with log := s.log ++ [Msg.producerWait id item] }
  | 0, s =>
      { buffer := s.buffer ++ [item]
        spaces := s.spaces - 1
        items := s.items + 1
        log := s.log ++ [Msg.produced id item] }

/-- Model of Buffer::consume.  The parameter acquired is the outcome of the
timed acquire of the items semaphore (within MAX_WAIT_TIME_MS): on failure
a timeout diagnostic is emitted and -1 is returned with the queue
untouched; on success the items count was decremented by the acquire, the
FIFO head is removed and returned, a diagnostic is emitted, and the spaces
semaphore is released. -/
def consume (id : Int) (acquired : Bool) (s : BufferState) : Int × BufferState :=
  if !acquired then
    (-1, { s with log := s.log ++ [Msg.consumerTimeout id] })
  else
    let item := s.buffer.headI
    (item, { s with
               buffer := s.buffer.tail
               spaces := s.spaces + 1
               items := s.items - 1
               log := s.log ++ [Msg.consumed id item] })

/-- The traversal of the temporary copy of the queue inside
Buffer::showRemainingItems: it pops the copy front to back, collecting the
values in order. -/
def collectRemaining : List Int → List Int
  | [] => []
  | x :: rest => x :: collectRemaining rest

/-- Model of Buffer::showRemainingItems: under the buffer mutex it reads the
queue without mutating it and emits either an empty-buffer message or the
collected snapshot of the queue. -/
def showRemainingItems (s : BufferState) : BufferState :=
  if s.buffer.isEmpty then
    { s with log := s.log ++ [Msg.bufferEmptyNote] }
  else
    { s with log := s.log ++ [Msg.remaining (collectRemaining s.buffer)] }

end Buffer

/-- Wraparound to a signed 32-bit value, the fixed-width machine-integer
semantics of int arithmetic taken modulo 2 ^ 32. -/
def toInt32 (n : Int) : Int := (n + 2 ^ 31) % 2 ^ 32 - 2 ^ 31

/-- The int value of the item produced for producer id at sequence index i,
under 32-bit wraparound semantics. -/
def itemValue (id i : Int) : Int := toInt32 (id * 100 + i)

/-- The sequence of items a producer with the given id passes to produce,
from the loop in Producer::operator(): for i in [0, n) the item is
id * 100 + i, computed in 32-bit int arithmetic. -/
def producedItems (id : Int) (n : Nat) : List Int :=
  (List.range n).map fun (i : Nat) => itemValue id (i : Int)

/-- The message main emits on an invalid invocation. -/
inductive MainMsg
  | usage
  | nonPositiveParams
  deriving DecidableEq, Repr

/-- Observable outcome of main: the exit code, the message emitted on an
invalid invocation, and whether Principal::run was executed. -/
structure MainOutcome where
  exitCode : Nat
  message : Option MainMsg
  ran : Bool
  deriving DecidableEq, Repr

/-- Model of main: argc is the argument count (program name included) and
the four ints are the values parsed from the positional arguments.  A wrong
argument count exits 1 with a usage message before anything runs; a
non-positive value exits 1 with an error message before anything runs;
otherwise Principal::run executes and main returns 0. -/
def mainRun (argc : Nat) (capacity n np nc : Int) : MainOutcome :=
  if argc ≠ 5 then
    { exitCode := 1, message := some MainMsg.usage, ran := false }
  else if capacity ≤ 0 ∨ n ≤ 0 ∨ np ≤ 0 ∨ nc ≤ 0 then
    { exitCode := 1, message := some MainMsg.nonPositiveParams, ran := false }
  else
    { exitCode := 0, message := none, ran := true }

/-- The atomic synchronisation actions a produce or consume call performs, in
program order: the timed and blocking semaphore operations, the buffer mutex
operations, and the queue accesses and message emissions between them. -/
inductive Act
  | tryAcquireSpacesFail
  | acquireSpaces
  | acquireMutex
  | pushToBuffer
  | emitMessage
  | releaseMutex
  | releaseItems
  | tryAcquireItemsFail
  | acquireItems
  | popFromBuffer
  | releaseSpaces
  deriving DecidableEq, Repr

/-- Whether an action mutates a semaphore count (spaces or items).  A failed
timed acquire leaves the count unchanged. -/
def mutatesCounts : Act → Bool
  | Act.acquireSpaces => true
  | Act.releaseItems => true
  | Act.acquireItems => true
  | Act.releaseSpaces => true
  | _ => false

/-- Whether an action acquires or releases the buffer mutex. -/
def touchesMutex : Act → Bool
  | Act.acquireMutex => true
  | Act.releaseMutex => true
  | _ => false

/-- The action trace of one produce call that fails its timed spaces acquire
k times before succeeding, following the loop body of Buffer::produce: each
failure emits the wait diagnostic; the successful acquire is followed by the
mutex-guarded push and message, then the items release. -/
def produceTrace : Nat → List Act
  | 0 => [Act.acquireSpaces, Act.acquireMutex, Act.pushToBuffer,
          Act.emitMessage, Act.releaseMutex, Act.releaseItems]
  | Nat.succ k => Act.tryAcquireSpacesFail :: Act.emitMessage :: produceTrace k

/-- The action trace of one consume call, by the outcome of its timed items
acquire: on failure only the timeout diagnostic is emitted; on success the
mutex-guarded pop and message are followed by the spaces release. -/
def consumeTrace (acquired : Bool) : List Act :=
  if !acquired then
    [Act.tryAcquireItemsFail, Act.emitMessage]
  else
    [Act.acquireItems, Act.acquireMutex, Act.popFromBuffer,
     Act.emitMessage, Act.releaseMutex, Act.releaseSpaces]

/-- Global channel state for the small-step model of concurrent produce and
consume calls.  Besides the queue and the two semaphore counts it records how
many calls are in flight between two of their atomic actions: producers past
the spaces acquire but before the push (pendingPush), producers past the push
but before the items release (pendingItemRel), consumers past the items
acquire but before the pop (pendingPop), and consumers past the pop but
before the spaces release (pendingSpaceRel). -/
structure ChanState where
  buffer : List Int
  spaces : Nat
  items : Nat
  pendingPush : Nat
  pendingItemRel : Nat
  pendingPop : Nat
  pendingSpaceRel : Nat
  deriving DecidableEq, Repr

/-- The state of a freshly constructed Buffer of capacity C: empty queue,
spaces semaphore at C, items semaphore at 0, no call in flight. -/
def chanInit (C : Nat) : ChanState :=
  { buffer := [], spaces := C, items := 0, pendingPush := 0,
    pendingItemRel := 0, pendingPop := 0, pendingSpaceRel := 0 }

/-- One atomic action of some produce or consume call, interleaved freely
with the actions of other calls.  A semaphore acquire fires only when the
count is positive; the pop takes the queue tail, as front and pop do on the
shared queue. -/
inductive Step : ChanState → ChanState → Prop
  | acquireSpace (s : ChanState) (n : Nat) (h : s.spaces = n + 1) :
      Step s { s with spaces := n, pendingPush := s.pendingPush + 1 }
  | pushItem (s : ChanState) (x : Int) (k : Nat) (h : s.pendingPush = k + 1) :
      Step s { s with buffer := s.buffer ++ [x], pendingPush := k,
                      pendingItemRel := s.pendingItemRel + 1 }
  | releaseItem (s : ChanState) (k : Nat) (h : s.pendingItemRel = k + 1) :
      Step s { s with items := s.items + 1, pendingItemRel := k }
  | acquireItem (s : ChanState) (n : Nat) (h : s.items = n + 1) :
      Step s { s with items := n, pendingPop := s.pendingPop + 1 }
  | popItem (s : ChanState) (k : Nat) (h : s.pendingPop = k + 1) :
      Step s { s with buffer := s.buffer.tail, pendingPop := k,
                      pendingSpaceRel := s.pendingSpaceRel + 1 }
  | releaseSpace (s : ChanState) (k : Nat) (h : s.pendingSpaceRel = k + 1) :
      Step s { s with spaces := s.spaces + 1, pendingSpaceRel := k }

/-- The states a Buffer of capacity C can reach through any interleaving of
produce and consume actions. -/
def Reachable (C : Nat) (s : ChanState) : Prop :=
  Relation.ReflTransGen Step (chanInit C) s

/-- The conservation law of the channel: every unit of capacity is exactly
one of a free slot, a producer in flight between acquire and push, a queued
element, or a consumer in flight between pop and slot release; and every
queued element is exactly one of an available item, a producer in flight
between push and item release, or a consumer in flight between item acquire
and pop. -/
def ChanInv (C : Nat) (s : ChanState) : Prop :=
  s.spaces + s.pendingPush + s.buffer.length + s.pendingSpaceRel = C ∧
  s.buffer.length = s.items + s.pendingItemRel + s.pendingPop

lemma chanInv_step {C : Nat} {s t : ChanState} (hs : ChanInv C s)
    (h : Step s t) : ChanInv C t := by
  obtain ⟨h1, h2⟩ := hs
  cases h with
  | acquireSpace n hn =>
      exact ⟨by simp only at *; omega, by simp only at *; omega⟩
  | pushItem x k hk =>
      refine ⟨?_, ?_⟩ <;> simp only [List.length_append, List.length_cons,
        List.length_nil] at * <;> omega
  | releaseItem k hk =>
      exact ⟨by simp only at *; omega, by simp only at *; omega⟩
  | acquireItem n hn =>
      exact ⟨by simp only at *; omega, by simp only at *; omega⟩
  | popItem k hk =>
      refine ⟨?_, ?_⟩ <;> simp only [List.length_tail] at * <;> omega
  | releaseSpace k hk =>
      exact ⟨by simp only at *; omega, by simp only at *; omega⟩

lemma chanInv_reachable {C : Nat} {s : ChanState} (h : Reachable C s) :
    ChanInv C s := by
  induction h with
  | refl => exact ⟨by simp [chanInit], by simp [chanInit]⟩
  | tail _ hstep ih => exact chanInv_step ih hstep

/-- The in-flight state reached from a capacity-1 channel after a single
produce call has acquired the spaces semaphore but not yet pushed. -/
def midAcquireState : ChanState :=
  { buffer := [], spaces := 0, items := 0, pendingPush := 1,
    pendingItemRel := 0, pendingPop := 0, pendingSpaceRel := 0 }

/-- Claim C1, as stated, is false: in the reachable state of a capacity-1
channel where one producer has acquired the spaces semaphore but not yet
mutated the queue, the free-slot count plus the queued-item count is 0, not
the capacity 1. -/
theorem capacity_equality_fails_midop :
    Reachable 1 midAcquireState ∧
    midAcquireState.spaces + midAcquireState.buffer.length ≠ 1 :=
  ⟨Relation.ReflTransGen.single (Step.acquireSpace (chanInit 1) 0 rfl),
   by decide⟩

/-- Claim C1 (amended): in every reachable state the free-slot count plus
the in-flight acquired-but-not-pushed slots plus the queued-item count plus
the in-flight popped-but-not-released slots equals the capacity; in
particular, in every reachable state with no operation in flight between a
semaphore acquire and the corresponding queue mutation (or between a queue
mutation and the corresponding release), available_slots + queued_items
equals the capacity. -/
theorem capacity_equality_inflight {C : Nat} {s : ChanState}
    (h : Reachable C s) :
    s.spaces + s.pendingPush + s.buffer.length + s.pendingSpaceRel = C ∧
    (s.pendingPush = 0 → s.pendingSpaceRel = 0 →
      s.spaces + s.buffer.length = C) := by
  obtain ⟨h1, _⟩ := chanInv_reachable h
  exact ⟨h1, fun hp hr => by omega⟩

/-- Witness for the amended claim C1 at the initial state of a capacity-2
channel. -/
theorem capacity_equality_inflight_witness :
    (chanInit 2).spaces + (chanInit 2).pendingPush +
      (chanInit 2).buffer.length + (chanInit 2).pendingSpaceRel = 2 ∧
    ((chanInit 2).pendingPush = 0 → (chanInit 2).pendingSpaceRel = 0 →
      (chanInit 2).spaces + (chanInit 2).buffer.length = 2) :=
  capacity_equality_inflight Relation.ReflTransGen.refl

/-- Claim C2: in every reachable state of a capacity-C channel the free-slot
count plus the length of the FIFO queue (the number of queued items) is at
most C, and the FIFO queue never exceeds C in length; reachability is closed
under every atomic action of produce and consume, and showRemainingItems
does not change the queue at all. -/
theorem capacity_bounds {C : Nat} {s : ChanState} (h : Reachable C s) :
    s.spaces + s.buffer.length ≤ C ∧ s.buffer.length ≤ C := by
  obtain ⟨h1, _⟩ := chanInv_reachable h
  exact ⟨by omega, by omega⟩

/-- Witness for claim C2 at the initial state of a capacity-1 channel. -/
theorem capacity_bounds_witness :
    (chanInit 1).spaces + (chanInit 1).buffer.length ≤ 1 ∧
    (chanInit 1).buffer.length ≤ 1 :=
  capacity_bounds Relation.ReflTransGen.refl

/-- Claim C3: a produce call whose timed spaces acquire fails k times emits
exactly k wait diagnostics, then, once the slot is acquired, appends the
item at the FIFO tail exactly once, consumes the acquired slot, emits the
success diagnostic and signals one additional available item; this holds for
every number k of failed waits, so the call never gives up, and the retry
delay constant is 500 ms. -/
theorem produce_appends_once (id item : Int) (k : Nat) (s : BufferState) :
    PRODUCER_RETRY_DELAY_MS = 500 ∧
    (Buffer.produce id item k s).buffer = s.buffer ++ [item] ∧
    (Buffer.produce id item k s).items = s.items + 1 ∧
    (Buffer.produce id item k s).spaces = s.spaces - 1 ∧
    (Buffer.produce id item k s).log
      = s.log ++ List.replicate k (Msg.producerWait id item)
              ++ [Msg.produced id item] := by
  refine ⟨rfl, ?_⟩
  induction k generalizing s with
  | zero => simp [Buffer.produce]
  | succ k ih =>
      obtain ⟨hb, hi, hs, hl⟩ := ih { s with log := s.log ++ [Msg.producerWait id item] }
      exact ⟨hb, hi, hs, by
        simp only [Buffer.produce, hl, List.replicate_succ, List.append_assoc,
          List.cons_append, List.nil_append, List.singleton_append]⟩

/-- Claim C4: a consume call waits at most MAX_WAIT_TIME_MS = 5000 ms; when
the timed items acquire fails it emits the timeout diagnostic and returns
the sentinel -1, and when it succeeds on a nonempty queue it removes and
returns exactly the FIFO head, emits the success diagnostic and signals one
additional free slot. -/
theorem consume_head_or_timeout (id : Int) (s : BufferState) :
    MAX_WAIT_TIME_MS = 5000 ∧
    Buffer.consume id false s
      = (-1, { s with log := s.log ++ [Msg.consumerTimeout id] }) ∧
    ∀ x rest, s.buffer = x :: rest →
      Buffer.consume id true s
        = (x, { s with buffer := rest, spaces := s.spaces + 1,
                       items := s.items - 1,
                       log := s.log ++ [Msg.consumed id x] }) := by
  refine ⟨rfl, rfl, fun x rest h => ?_⟩
  simp [Buffer.consume, h]

/-- Claim C10: when the timed items acquire fails, consume returns -1 and
leaves the channel state exactly as it found it: the queue, the free-slot
count and the available-item count are unchanged, and only the timeout
diagnostic is appended to the log. -/
theorem consume_timeout_frame (id : Int) (s : BufferState) :
    (Buffer.consume id false s).1 = -1 ∧
    (Buffer.consume id false s).2.buffer = s.buffer ∧
    (Buffer.consume id false s).2.spaces = s.spaces ∧
    (Buffer.consume id false s).2.items = s.items ∧
    (Buffer.consume id false s).2.log = s.log ++ [Msg.consumerTimeout id] := by
  refine ⟨rfl, rfl, rfl, rfl, rfl⟩

lemma collectRemaining_eq (l : List Int) : Buffer.collectRemaining l = l := by
  induction l with
  | nil => rfl
  | cons x rest ih => simp [Buffer.collectRemaining, ih]

/-- Claim C7: showRemainingItems emits the snapshot of all currently queued
items in FIFO order (or an empty-buffer note when there are none) and
changes nothing else: the queue, the free-slot count and the available-item
count are exactly as before the call. -/
theorem showRemainingItems_frame (s : BufferState) :
    (Buffer.showRemainingItems s).buffer = s.buffer ∧
    (Buffer.showRemainingItems s).spaces = s.spaces ∧
    (Buffer.showRemainingItems s).items = s.items ∧
    Buffer.collectRemaining s.buffer = s.buffer ∧
    (Buffer.showRemainingItems s).log
      = s.log ++ [if s.buffer.isEmpty then Msg.bufferEmptyNote
                  else Msg.remaining s.buffer] := by
  by_cases h : s.buffer.isEmpty <;>
    simp [Buffer.showRemainingItems, h, collectRemaining_eq]

lemma itemValue_eq_of_no_overflow {id i : Int} (hid : 1 ≤ id) (hi : 0 ≤ i)
    (hof : id * 100 + i < 2 ^ 31) : itemValue id i = id * 100 + i := by
  unfold itemValue toInt32
  omega

/-- Claim C5, as stated, is false: the source computes id * 100 + i in
32-bit int, so for producer id 21474836 with n = 49 items (a configuration
main accepts) the value at index 48 wraps to -2147483648 instead of
21474836 * 100 + 48, and the sequence drops from 2147483647 at index 47 to
-2147483648 at index 48, so it is not strictly increasing. -/
theorem producer_items_wrap :
    (producedItems 21474836 49)[47]? = some 2147483647 ∧
    (producedItems 21474836 49)[48]? = some (-2147483648) ∧
    (21474836 : Int) * 100 + 48 ≠ -2147483648 ∧
    ¬ (producedItems 21474836 49).Pairwise (· < ·) ∧
    (mainRun 5 1 49 21474836 1).exitCode = 0 := by
  refine ⟨by decide, by decide, by decide, ?_, by decide⟩
  intro h
  have h4748 := (List.pairwise_iff_getElem.mp h) 47 48
    (by decide) (by decide) (by omega)
  revert h4748
  decide

/-- Claim C5 (amended): for a producer with id at least 1 producing n items
with n at least 1, as long as no item computation overflows (id * 100 with
the largest index n - 1 stays below 2 ^ 31), the driver loop calls produce
exactly n times, the i-th call (for i < n) carrying the item id * 100 + i,
and the item sequence is strictly increasing; only wraparound past
2 ^ 31 - 1 breaks the formula and the order. -/
theorem producer_generates_items (id : Int) (n : Nat)
    (hid : 1 ≤ id) (hn : 1 ≤ n)
    (hof : id * 100 + ((n : Int) - 1) < 2 ^ 31) :
    (producedItems id n).length = n ∧
    (∀ i : Nat, i < n → (producedItems id n)[i]? = some (id * 100 + (i : Int))) ∧
    (producedItems id n).Pairwise (· < ·) := by
  have hval : ∀ i : Nat, i < n → itemValue id (i : Int) = id * 100 + (i : Int) := by
    intro i hi
    exact itemValue_eq_of_no_overflow hid (by omega) (by omega)
  refine ⟨?_, fun i hi => ?_, ?_⟩
  · rw [producedItems, List.length_map, List.length_range]
  · rw [producedItems, List.getElem?_map, List.getElem?_range hi]
    show some (itemValue id (i : Int)) = some (id * 100 + (i : Int))
    rw [hval i hi]
  · rw [producedItems, List.pairwise_map]
    refine List.Pairwise.imp_of_mem ?_ (List.pairwise_lt_range n)
    intro a b ha hb hab
    rw [List.mem_range] at ha hb
    rw [hval a ha, hval b hb]
    omega

/-- Witness for the amended claim C5 with producer id 1 and n = 2 items. -/
theorem producer_generates_items_witness :
    (producedItems 1 2).length = 2 ∧
    (∀ i : Nat, i < 2 → (producedItems 1 2)[i]? = some (1 * 100 + (i : Int))) ∧
    (producedItems 1 2).Pairwise (· < ·) :=
  producer_generates_items 1 2 (by decide) (by decide) (by norm_num)

/-- Claim C6: in the trace of every produce call, whatever the number k of
failed waits, the successful spaces acquire is the action immediately before
the mutex acquire, everything earlier neither mutates a semaphore count nor
touches the mutex, the critical section contains only the push and the
message emission (which mutate no count), and the items release is the
action immediately after the mutex release; the successful consume trace has
the same shape with items acquired first and spaces released last, and a
timed-out consume trace touches neither the mutex nor any count. -/
theorem semaphore_mutex_ordering :
    (∀ k : Nat, ∃ pre : List Act,
        produceTrace k
          = pre ++ [Act.acquireSpaces, Act.acquireMutex, Act.pushToBuffer,
                    Act.emitMessage, Act.releaseMutex, Act.releaseItems] ∧
        ∀ a ∈ pre, mutatesCounts a = false ∧ touchesMutex a = false) ∧
    consumeTrace true
      = [Act.acquireItems, Act.acquireMutex, Act.popFromBuffer,
         Act.emitMessage, Act.releaseMutex, Act.releaseSpaces] ∧
    (∀ a ∈ consumeTrace false, mutatesCounts a = false ∧ touchesMutex a = false) ∧
    mutatesCounts Act.pushToBuffer = false ∧
    mutatesCounts Act.popFromBuffer = false ∧
    mutatesCounts Act.emitMessage = false := by
  refine ⟨fun k => ?_, rfl, by decide, rfl, rfl, rfl⟩
  induction k with
  | zero => exact ⟨[], rfl, by simp⟩
  | succ k ih =>
      obtain ⟨pre, hpre, hall⟩ := ih
      refine ⟨Act.tryAcquireSpacesFail :: Act.emitMessage :: pre, ?_, ?_⟩
      · simp [produceTrace, hpre]
      · intro a ha
        rcases ha with _ | ⟨_, ha⟩
        · exact ⟨rfl, rfl⟩
        · rcases ha with _ | ⟨_, ha⟩
          · exact ⟨rfl, rfl⟩
          · exact hall a ha

/-- Claim C8: main exits with code 1 and the usage message when the argument
count is not the required five (program name plus four positionals), exits
with code 1 and an error message without running anything when the count is
right but one of capacity, N, NP, NC is non-positive, and otherwise runs the
workers and exits with code 0. -/
theorem main_exit_codes (argc : Nat) (c n np nc : Int) :
    (argc ≠ 5 →
      mainRun argc c n np nc
        = { exitCode := 1, message := some MainMsg.usage, ran := false }) ∧
    (argc = 5 → (c ≤ 0 ∨ n ≤ 0 ∨ np ≤ 0 ∨ nc ≤ 0) →
      mainRun argc c n np nc
        = { exitCode := 1, message := some MainMsg.nonPositiveParams,
            ran := false }) ∧
    (argc = 5 → 0 < c → 0 < n → 0 < np → 0 < nc →
      mainRun argc c n np nc
        = { exitCode := 0, message := none, ran := true }) := by
  refine ⟨fun h => by simp [mainRun, h], fun h hneg => by simp [mainRun, h, hneg],
    fun h hc hn hnp hnc => ?_⟩
  have : ¬ (c ≤ 0 ∨ n ≤ 0 ∨ np ≤ 0 ∨ nc ≤ 0) := by omega
  simp [mainRun, h, this]

/-- Claim C9, as stated, is false: under 32-bit wraparound semantics the
item value for producer id 42949672 at sequence index 95 (a domain the
validation in main accepts, with id at least 1 and 0 ≤ 95 < N = 96) is
exactly the timeout sentinel -1, because 42949672 * 100 + 95 = 2 ^ 32 - 1
wraps to -1. -/
theorem item_sentinel_collision :
    itemValue 42949672 95 = -1 ∧
    (1 : Int) ≤ 42949672 ∧ (0 : Int) ≤ 95 ∧ (95 : Int) < 96 ∧
    (mainRun 5 1 96 42949672 1).exitCode = 0 := by
  refine ⟨?_, by decide, by decide, by decide, by decide⟩
  decide

/-- Claim C9 (amended): as long as the arithmetic does not overflow, that
is, id * 100 + i is below 2 ^ 31, the item value of a producer with id at
least 1 at sequence index i at least 0 equals id * 100 + i, is at least
100, and in particular never equals the timeout sentinel -1; only
wraparound past 2 ^ 31 - 1 can make it collide with the sentinel. -/
theorem item_never_sentinel (id i : Int) (hid : 1 ≤ id) (hi : 0 ≤ i)
    (hof : id * 100 + i < 2 ^ 31) :
    itemValue id i = id * 100 + i ∧ 100 ≤ itemValue id i ∧
    itemValue id i ≠ -1 := by
  have h : itemValue id i = id * 100 + i := by
    unfold itemValue toInt32
    omega
  exact ⟨h, by omega, by omega⟩

/-- Witness for the amended claim C9 with id 1 and i 0. -/
theorem item_never_sentinel_witness :
    itemValue 1 0 = 1 * 100 + 0 ∧ 100 ≤ itemValue 1 0 ∧ itemValue 1 0 ≠ -1 :=
  item_never_sentinel 1 0 (by decide) (by decide) (by norm_num)
